import Mathlib

/-!
Shallow embedding of the HyperFlash trade-lifecycle coordinator:
the `UserStaking` collateral contract (src/contracts/Factory.sol),
the backend `TradeMonitor` (src/backend/monitor/tradeMonitorSimple.js,
the real `TradeMonitor` class), and the `DeBridgeService` poller
(src/backend/debridge/bridge.js).

Blockchain addresses are modelled as natural numbers (0 is the zero
address).  The JavaScript `Map` of active trades is modelled as an
association list with JavaScript `Map` semantics (set replaces in
place, delete removes).  External effects (transaction confirmation,
value transfer, the HyperLiquid venue call, the bridge status API)
are modelled as explicit oracle parameters.
-/

namespace HyperFlash

abbrev Address := Nat

/-- Association-list lookup, mirroring `Map.get` / Solidity mapping reads. -/
def getEntry {β : Type} : List (String × β) → String → Option β
  | [], _ => none
  | (k, v) :: rest, key => if k = key then some v else getEntry rest key

/-- Association-list update, mirroring `Map.set`: replace in place when the
key is present, append otherwise. -/
def setEntry {β : Type} : List (String × β) → String → β → List (String × β)
  | [], key, v => [(key, v)]
  | (k, w) :: rest, key, v =>
      if k = key then (key, v) :: rest else (k, w) :: setEntry rest key v

/-- Association-list removal, mirroring `Map.delete`. -/
def delEntry {β : Type} : List (String × β) → String → List (String × β)
  | [], _ => []
  | (k, v) :: rest, key =>
      if k = key then delEntry rest key else (k, v) :: delEntry rest key

/-- Lookup keyed by address (for the set of deployed contracts). -/
def getAddrEntry {β : Type} : List (Address × β) → Address → Option β
  | [], _ => none
  | (k, v) :: rest, key => if k = key then some v else getAddrEntry rest key

/-- Update keyed by address. -/
def setAddrEntry {β : Type} : List (Address × β) → Address → β → List (Address × β)
  | [], key, v => [(key, v)]
  | (k, w) :: rest, key, v =>
      if k = key then (key, v) :: rest else (k, w) :: setAddrEntry rest key v

/-- State of one `UserStaking` contract (src/contracts/Factory.sol,
contract `UserStaking`).  `activeTrades` models the
`mapping(string => bool)` as the list of trade ids currently mapped to
`true`. -/
structure UserStaking where
  user : Address
  validator : Address
  backend : Address
  sharedEOA : Address
  stakedAmount : Nat
  isSlashed : Bool
  activeTrades : List String
deriving Repr, DecidableEq

namespace UserStaking

/-- `depositAndStake` (modifiers `onlyUser`, `notSlashed`); a `require`
failure reverts, leaving the state unchanged. -/
def depositAndStake (c : UserStaking) (sender : Address) (value : Nat) :
    Except String UserStaking :=
  if sender ≠ c.user then .error "Only user can call"
  else if c.isSlashed then .error "Contract has been slashed"
  else if value = 0 then .error "Must deposit funds"
  else .ok { c with stakedAmount := c.stakedAmount + value }

/-- `registerTrade` (modifiers `onlyBackend`, `notSlashed`). -/
def registerTrade (c : UserStaking) (sender : Address) (tradeId : String) :
    Except String UserStaking :=
  if sender ≠ c.backend then .error "Only backend can call"
  else if c.isSlashed then .error "Contract has been slashed"
  else if tradeId ∈ c.activeTrades then .error "Trade already registered"
  else .ok { c with activeTrades := tradeId :: c.activeTrades }

/-- `completeTrade` (modifier `onlyBackend` only; no `notSlashed` guard). -/
def completeTrade (c : UserStaking) (sender : Address) (tradeId : String) :
    Except String UserStaking :=
  if sender ≠ c.backend then .error "Only backend can call"
  else if tradeId ∈ c.activeTrades then
    .ok { c with activeTrades := c.activeTrades.filter (fun t => t ≠ tradeId) }
  else .error "Trade not found"

/-- `slash` (modifiers `onlyBackend`, `notSlashed`): sets `isSlashed` and
transfers `stakedAmount` to the shared EOA.  `transferOk` models the
success of the low-level value transfer; its failure reverts the whole
call.  On success the emitted `FundsSlashed` amount is returned. -/
def slash (c : UserStaking) (sender : Address) (transferOk : Bool) :
    Except String (UserStaking × Nat) :=
  if sender ≠ c.backend then .error "Only backend can call"
  else if c.isSlashed then .error "Contract has been slashed"
  else if c.stakedAmount = 0 then .error "No funds to slash"
  else if transferOk = false then .error "Slash transfer failed"
  else .ok ({ c with isSlashed := true }, c.stakedAmount)

/-- `withdraw` (modifiers `onlyUser`, `notSlashed`). -/
def withdraw (c : UserStaking) (sender : Address) (transferOk : Bool) :
    Except String UserStaking :=
  if sender ≠ c.user then .error "Only user can call"
  else if c.isSlashed then .error "Contract has been slashed"
  else if c.stakedAmount = 0 then .error "No funds to withdraw"
  else if transferOk = false then .error "Withdrawal failed"
  else .ok { c with stakedAmount := 0 }

/-- `hasSufficientStake`: `!isSlashed && stakedAmount >= _amount`. -/
def hasSufficientStake (c : UserStaking) (amount : Nat) : Bool :=
  !c.isSlashed && decide (amount ≤ c.stakedAmount)

/-- `getStatus`: `(stakedAmount, !isSlashed)`. -/
def getStatus (c : UserStaking) : Nat × Bool :=
  (c.stakedAmount, !c.isSlashed)

end UserStaking

/-- On-chain state visible to the monitor: the factory mapping
`userStakingContracts` and the deployed `UserStaking` contracts keyed
by address. -/
structure ChainState where
  userStakingContracts : List (Address × Address)
  contracts : List (Address × UserStaking)
deriving Repr, DecidableEq

/-- `Factory.getUserStakingContract`: mapping read, zero address when absent. -/
def Factory.getUserStakingContract (ch : ChainState) (u : Address) : Address :=
  (getAddrEntry ch.userStakingContracts u).getD 0

/-- `Factory.hasStakingContract`: `userStakingContracts[_user] != address(0)`. -/
def Factory.hasStakingContract (ch : ChainState) (u : Address) : Bool :=
  decide (Factory.getUserStakingContract ch u ≠ 0)

/-- Replace the state of the contract at `addr` after a successful
transaction. -/
def ChainState.setContract (ch : ChainState) (addr : Address) (c : UserStaking) :
    ChainState :=
  { ch with contracts := setAddrEntry ch.contracts addr c }

/-- Per-trade record stored in the monitor's `activeTrades` map
(`TradeMonitor.registerTrade` builds it; later steps mutate it in
place). -/
structure TradeData where
  user : Address
  stakingContract : Address
  amount : Nat
  startTime : Nat
  debridgeId : Option String
  bridgeInitiated : Bool
  bridgeCompleted : Bool
  tradeExecuted : Bool
  orderId : Option String
  executionTime : Option Nat
  error : Option String
deriving Repr, DecidableEq

/-- The monitor's in-memory `activeTrades` map (`tradeId -> tradeData`). -/
abbrev Registry := List (String × TradeData)

/-- The record stored by `TradeMonitor.registerTrade` on success. -/
def initialTradeData (userAddress stakingAddress : Address) (amount now : Nat) :
    TradeData :=
  { user := userAddress
    stakingContract := stakingAddress
    amount := amount
    startTime := now
    debridgeId := none
    bridgeInitiated := false
    bridgeCompleted := false
    tradeExecuted := false
    orderId := none
    executionTime := none
    error := none }

/-- Result object returned to the caller (`{success, error?}`). -/
structure CallResult where
  success : Bool
  error : Option String
deriving Repr, DecidableEq

namespace TradeMonitor

/-- Outcome of `TradeMonitor.registerTrade`: the returned result object
plus the monitor registry and chain state after the call. -/
structure RegisterOutcome where
  result : CallResult
  registry : Registry
  chain : ChainState
deriving Repr, DecidableEq

/-- `TradeMonitor.registerTrade(userAddress, tradeId, amount)`.  Every
thrown error is caught and returned as `{success:false, error}`; each
failure path leaves the registry and the chain untouched.  `signer` is
the backend wallet the monitor signs with; `now` is `Date.now()`;
`txOk` models network-level confirmation of the submitted
`registerTrade` transaction. -/
def registerTrade (chain : ChainState) (reg : Registry) (signer : Address)
    (userAddress : Address) (tradeId : String) (amount : Nat) (now : Nat)
    (txOk : Bool) : RegisterOutcome :=
  if Factory.hasStakingContract chain userAddress = false then
    ⟨⟨false, some "User has no staking contract"⟩, reg, chain⟩
  else
    match getAddrEntry chain.contracts (Factory.getUserStakingContract chain userAddress) with
    | none => ⟨⟨false, some "Staking contract not found"⟩, reg, chain⟩
    | some c =>
      if (UserStaking.getStatus c).2 = false then
        ⟨⟨false, some "Staking contract is slashed"⟩, reg, chain⟩
      else if UserStaking.hasSufficientStake c amount = false then
        ⟨⟨false, some "Insufficient stake for trade amount"⟩, reg, chain⟩
      else if tradeId ∈ c.activeTrades then
        ⟨⟨false, some "Trade already registered"⟩, reg, chain⟩
      else
        match UserStaking.registerTrade c signer tradeId with
        | .error e => ⟨⟨false, some e⟩, reg, chain⟩
        | .ok c' =>
          if txOk = false then
            ⟨⟨false, some "Transaction failed"⟩, reg, chain⟩
          else
            ⟨⟨true, none⟩,
             setEntry reg tradeId
               (initialTradeData userAddress
                 (Factory.getUserStakingContract chain userAddress) amount now),
             chain.setContract (Factory.getUserStakingContract chain userAddress) c'⟩

/-- `TradeMonitor.getTradeStatus`: `{exists:false}` when the trade is not
in the registry, otherwise a view of the stored record (modelled as the
record itself). -/
def getTradeStatus (reg : Registry) (tradeId : String) : Option TradeData :=
  getEntry reg tradeId

/-- `TradeMonitor.setDebridgeId`: silently does nothing when the trade is
unknown; otherwise sets `debridgeId` and `bridgeInitiated` on the
stored record. -/
def setDebridgeId (reg : Registry) (tradeId : String) (dbid : String) : Registry :=
  match getEntry reg tradeId with
  | none => reg
  | some t =>
      setEntry reg tradeId { t with debridgeId := some dbid, bridgeInitiated := true }

/-- Result of the external HyperLiquid venue call
(`this.hyperLiquid.executeTrade`), when it returns. -/
structure ExecResult where
  success : Bool
  orderId : String
  executionTime : Nat
  error : String
deriving Repr, DecidableEq

/-- Outcome of `TradeMonitor.executeTrade`: returned result, registry after
the call, and whether `monitorBridgeForTrade` was started. -/
structure ExecuteOutcome where
  result : CallResult
  registry : Registry
  monitorStarted : Bool
deriving Repr, DecidableEq

/-- `TradeMonitor.executeTrade(tradeId, tradingParams)`.  `hlResult` is the
venue call outcome: `some r` when the call returns (`r.success` may be
false), `none` when it throws (the catch branch).  On a returned
result the trade record is updated (success: `tradeExecuted := true`
with order data; failure: `tradeExecuted := false` with the error) and
`monitorBridgeForTrade` is started regardless; the throwing branch
starts no monitor. -/
def executeTrade (reg : Registry) (tradeId : String)
    (hlResult : Option ExecResult) : ExecuteOutcome :=
  match getEntry reg tradeId with
  | none => ⟨⟨false, some "Trade not found"⟩, reg, false⟩
  | some t =>
    match hlResult with
    | none => ⟨⟨false, some "Trade execution failed"⟩, reg, false⟩
    | some r =>
      if r.success then
        ⟨⟨true, none⟩,
         setEntry reg tradeId
           { t with tradeExecuted := true, orderId := some r.orderId,
                    executionTime := some r.executionTime },
         true⟩
      else
        ⟨⟨false, some r.error⟩,
         setEntry reg tradeId { t with tradeExecuted := false, error := some r.error },
         true⟩

/-- Outcome of `TradeMonitor.slashUser`: registry and chain after the
call, whether a slash transaction was submitted, and whether it
succeeded. -/
structure SlashOutcome where
  registry : Registry
  chain : ChainState
  txSubmitted : Bool
  txSucceeded : Bool
deriving Repr, DecidableEq

/-- `TradeMonitor.slashUser(tradeId, reason)`.  Unknown trade: early
return.  Then the on-chain `isSlashed` flag is read; if already
slashed, early return with no transaction.  Otherwise the slash
transaction is submitted (`txOk` models network confirmation,
`transferOk` the value transfer inside `slash`); on success the
contract state is updated and the trade removed from the registry; a
failed transaction is caught and changes nothing. -/
def slashUser (chain : ChainState) (reg : Registry) (signer : Address)
    (tradeId : String) (txOk transferOk : Bool) : SlashOutcome :=
  match getEntry reg tradeId with
  | none => ⟨reg, chain, false, false⟩
  | some t =>
    match getAddrEntry chain.contracts t.stakingContract with
    | none => ⟨reg, chain, false, false⟩
    | some c =>
      if c.isSlashed then ⟨reg, chain, false, false⟩
      else if txOk = false then ⟨reg, chain, true, false⟩
      else
        match UserStaking.slash c signer transferOk with
        | .error _ => ⟨reg, chain, true, false⟩
        | .ok (c', _) =>
            ⟨delEntry reg tradeId, chain.setContract t.stakingContract c', true, true⟩

/-- The condition checked by the `setTimeout` callback installed by
`monitorBridgeForTrade`: `!tradeData.bridgeCompleted && tradeData.tradeExecuted`. -/
def timeoutSlashCondition (t : TradeData) : Bool :=
  !t.bridgeCompleted && t.tradeExecuted

/-- Outcome of the bridge-timeout callback. -/
structure TimeoutOutcome where
  registry : Registry
  chain : ChainState
  slashInvoked : Bool
  slashTxSubmitted : Bool
deriving Repr, DecidableEq

/-- The body of the `setTimeout` callback in
`TradeMonitor.monitorBridgeForTrade`, fired when the bridge deadline
elapses.  `t` is the captured trade data as it stands at that moment;
`slashUser` is invoked exactly when the condition holds. -/
def onBridgeTimeout (chain : ChainState) (reg : Registry) (signer : Address)
    (tradeId : String) (t : TradeData) (txOk transferOk : Bool) : TimeoutOutcome :=
  if timeoutSlashCondition t then
    let s := slashUser chain reg signer tradeId txOk transferOk
    ⟨s.registry, s.chain, true, s.txSubmitted⟩
  else ⟨reg, chain, false, false⟩

/-- Outcome of `TradeMonitor.completeBridge`. -/
structure CompleteOutcome where
  registry : Registry
  chain : ChainState
  finalized : Bool
deriving Repr, DecidableEq

/-- `TradeMonitor.completeBridge(tradeId)`.  Unknown trade: early return.
Otherwise `bridgeCompleted` is set first; then the on-chain
`completeTrade` transaction is attempted (`txOk` models network
confirmation).  Only after the transaction succeeds is the trade
removed from the registry; a failure is caught and the trade stays
registered with `bridgeCompleted = true`. -/
def completeBridge (chain : ChainState) (reg : Registry) (signer : Address)
    (tradeId : String) (txOk : Bool) : CompleteOutcome :=
  match getEntry reg tradeId with
  | none => ⟨reg, chain, false⟩
  | some t =>
    let reg1 := setEntry reg tradeId { t with bridgeCompleted := true }
    match getAddrEntry chain.contracts t.stakingContract with
    | none => ⟨reg1, chain, false⟩
    | some c =>
      if txOk = false then ⟨reg1, chain, false⟩
      else
        match UserStaking.completeTrade c signer tradeId with
        | .error _ => ⟨reg1, chain, false⟩
        | .ok c' => ⟨delEntry reg1 tradeId, chain.setContract t.stakingContract c', true⟩

end TradeMonitor

namespace DeBridgeService

/-- Outcome of one iteration of the polling loop in
`DeBridgeService.monitorBridgeCompletion`. -/
inductive PollOutcome where
  | completedViaApi (status : String)
  | completedViaChain
  | retry
deriving Repr, DecidableEq

/-- One iteration of the polling loop in
`DeBridgeService.monitorBridgeCompletion`.  `apiStatus` is the status
field of the DeBridge API response, `none` when the request fails (the
`.catch(() => null)`).  `chainEvents` is the number of on-chain
`Claimed` events matching the debridge id, `none` when the event query
throws (caught by the surrounding try, falling through to the next
interval). -/
def pollOnce (apiStatus : Option String) (chainEvents : Option Nat) : PollOutcome :=
  match apiStatus with
  | some s =>
    if s = "Claimed" ∨ s = "Completed" then .completedViaApi s
    else
      match chainEvents with
      | some n => if 0 < n then .completedViaChain else .retry
      | none => .retry
  | none =>
    match chainEvents with
    | some n => if 0 < n then .completedViaChain else .retry
    | none => .retry

/-- `DeBridgeService.checkBridgeFulfillment`: true exactly when the
on-chain `Claimed` event query succeeds and returns at least one
event; a query error is caught and reported as false. -/
def checkBridgeFulfillment (chainEvents : Option Nat) : Bool :=
  match chainEvents with
  | some n => decide (0 < n)
  | none => false

/-- Result object of `DeBridgeService.getBridgeStatus`. -/
structure BridgeStatusResult where
  success : Bool
  status : String
deriving Repr, DecidableEq

/-- `DeBridgeService.getBridgeStatus(debridgeId)`: the API response when
the request succeeds; on request failure it falls back to the on-chain
fulfillment check and reports "Claimed" or "Pending". -/
def getBridgeStatus (apiStatus : Option String) (chainEvents : Option Nat) :
    BridgeStatusResult :=
  match apiStatus with
  | some s => ⟨true, s⟩
  | none => ⟨true, if checkBridgeFulfillment chainEvents then "Claimed" else "Pending"⟩

end DeBridgeService

/-- Whether an `Except` computation succeeded. -/
def exceptOk {ε α : Type} : Except ε α → Bool
  | .ok _ => true
  | .error _ => false

/- Association-list lemmas shared by the registry proofs. -/

theorem getEntry_setEntry_self {β : Type} (l : List (String × β)) (k : String) (v : β) :
    getEntry (setEntry l k v) k = some v := by
  induction l with
  | nil => simp [setEntry, getEntry]
  | cons hd tl ih =>
    by_cases h : hd.1 = k
    · simp [setEntry, getEntry, h]
    · simpa [setEntry, getEntry, h] using ih

theorem getEntry_setEntry_ne {β : Type} (l : List (String × β)) (k k' : String) (v : β)
    (h : k' ≠ k) : getEntry (setEntry l k v) k' = getEntry l k' := by
  have h' : ¬ k = k' := fun hh => h hh.symm
  induction l with
  | nil => simp [setEntry, getEntry, h']
  | cons hd tl ih =>
    by_cases hk : hd.1 = k
    · simp [setEntry, getEntry, hk, h']
    · by_cases hk' : hd.1 = k'
      · simp [setEntry, getEntry, hk, hk', h]
      · simpa [setEntry, getEntry, hk, hk', h] using ih

theorem getEntry_delEntry_self {β : Type} (l : List (String × β)) (k : String) :
    getEntry (delEntry l k) k = none := by
  induction l with
  | nil => simp [delEntry, getEntry]
  | cons hd tl ih =>
    by_cases h : hd.1 = k
    · simpa [delEntry, h] using ih
    · simpa [delEntry, getEntry, h] using ih

theorem getAddrEntry_setAddrEntry_self {β : Type} (l : List (Address × β))
    (k : Address) (v : β) : getAddrEntry (setAddrEntry l k v) k = some v := by
  induction l with
  | nil => simp [setAddrEntry, getAddrEntry]
  | cons hd tl ih =>
    by_cases h : hd.1 = k
    · simp [setAddrEntry, getAddrEntry, h]
    · simpa [setAddrEntry, getAddrEntry, h] using ih

/-- `slashUser` on a trade id absent from the registry is a no-op. -/
theorem slashUser_missing_trade (chain : ChainState) (reg : Registry)
    (signer : Address) (tradeId : String) (a b : Bool)
    (h : getEntry reg tradeId = none) :
    TradeMonitor.slashUser chain reg signer tradeId a b = ⟨reg, chain, false, false⟩ := by
  simp [TradeMonitor.slashUser, h]

/-- A successful `slashUser` removes the trade from the registry. -/
theorem slashUser_success_deletes (chain : ChainState) (reg : Registry)
    (signer : Address) (tradeId : String) (a b : Bool)
    (h : (TradeMonitor.slashUser chain reg signer tradeId a b).txSucceeded = true) :
    getEntry (TradeMonitor.slashUser chain reg signer tradeId a b).registry tradeId
      = none := by
  unfold TradeMonitor.slashUser at h ⊢
  cases hge : getEntry reg tradeId with
  | none => simp [hge] at h
  | some t =>
    simp only [hge] at h ⊢
    cases hca : getAddrEntry chain.contracts t.stakingContract with
    | none => simp [hca] at h
    | some c =>
      simp only [hca] at h ⊢
      by_cases hsl : c.isSlashed = true
      · simp [hsl] at h
      · simp only [hsl, if_false] at h ⊢
        by_cases ha : a = false
        · simp [ha] at h
        · simp only [ha, if_false] at h ⊢
          cases hres : UserStaking.slash c signer b with
          | error e => simp [hres] at h
          | ok p => simp [hres, getEntry_delEntry_self]

/-- Claim C1: when a trade's bridge deadline elapses, the timeout callback
invokes the slashing path if and only if, at that moment, the trade is
executed and its bridge is not completed; in particular, a trade whose
execution failed (so `tradeExecuted` is false) is never slashed at the
deadline, regardless of the bridge outcome. -/
theorem slash_attempt_iff_executed_and_bridge_incomplete
    (chain : ChainState) (reg : Registry) (signer : Address) (tradeId : String)
    (t : TradeData) (txOk transferOk : Bool) :
    ((TradeMonitor.onBridgeTimeout chain reg signer tradeId t txOk transferOk).slashInvoked = true
       ↔ (t.tradeExecuted = true ∧ t.bridgeCompleted = false))
    ∧ (TradeMonitor.onBridgeTimeout chain reg signer tradeId
         { t with tradeExecuted := false } txOk transferOk).slashInvoked = false
    ∧ (TradeMonitor.onBridgeTimeout chain reg signer tradeId
         { t with tradeExecuted := false } txOk transferOk).slashTxSubmitted = false := by
  refine ⟨?_, ?_, ?_⟩ <;>
    simp only [TradeMonitor.onBridgeTimeout, TradeMonitor.timeoutSlashCondition] <;>
    cases hb : t.bridgeCompleted <;> cases he : t.tradeExecuted <;> simp_all

/-- Claim C7: the stake gate passes a trade of a given amount exactly when
the collateral contract is not slashed and its staked amount is at least
the trade amount (the simple 100 percent ratio check); and inside
`TradeMonitor.registerTrade` the two stake-gate errors occur exactly when
`hasSufficientStake` is false on the looked-up contract. -/
theorem stake_gate_iff (c : UserStaking) (amount : Nat) :
    (UserStaking.hasSufficientStake c amount = true
       ↔ (c.isSlashed = false ∧ amount ≤ c.stakedAmount))
    ∧ (∀ (chain : ChainState) (reg : Registry) (signer userAddress : Address)
         (tradeId : String) (amt now : Nat) (txOk : Bool) (c' : UserStaking),
         Factory.hasStakingContract chain userAddress = true →
         getAddrEntry chain.contracts (Factory.getUserStakingContract chain userAddress)
           = some c' →
         (((TradeMonitor.registerTrade chain reg signer userAddress tradeId amt now
              txOk).result.error = some "Staking contract is slashed"
           ∨ (TradeMonitor.registerTrade chain reg signer userAddress tradeId amt now
                txOk).result.error = some "Insufficient stake for trade amount")
          ↔ UserStaking.hasSufficientStake c' amt = false)) := by
  constructor
  · simp [UserStaking.hasSufficientStake]
  · intro chain reg signer u tid amt now txOk c' hhas hc
    by_cases hs : c'.isSlashed
    · simp [TradeMonitor.registerTrade, hhas, hc, UserStaking.getStatus,
        UserStaking.hasSufficientStake, hs]
    · by_cases hsuf : amt ≤ c'.stakedAmount
      · simp only [TradeMonitor.registerTrade, hhas, hc, UserStaking.getStatus,
          UserStaking.hasSufficientStake, hs, hsuf]
        by_cases hmem : tid ∈ c'.activeTrades
        · simp [hmem, hs, hsuf]
        · cases hreg : c'.registerTrade signer tid with
          | error e =>
            have he : e = "Only backend can call" := by
              unfold UserStaking.registerTrade at hreg
              split at hreg
              · simpa using hreg.symm
              · simp [hs, hmem] at hreg
            subst he
            simp [hmem, hreg, hs, hsuf]
          | ok c2 =>
            by_cases ht : txOk <;> simp [hmem, hreg, ht, hs, hsuf]
      · simp [TradeMonitor.registerTrade, hhas, hc, UserStaking.getStatus,
          UserStaking.hasSufficientStake, hs, hsuf]

/-- Claim C8: a failed bridge status request is treated as unknown or
pending and retried, never as completed: with a failed API request one
poll iteration either retries or concludes completion solely from an
observed on-chain Claimed event; `getBridgeStatus` then reports
"Claimed" exactly when the on-chain fulfillment check observed an event
and never reports "Completed"; and any completion concluded from the
API requires an explicit Claimed or Completed status. -/
theorem bridge_poll_api_failure_never_completed
    (apiStatus : Option String) (chainEvents : Option Nat) :
    (DeBridgeService.pollOnce none chainEvents = .retry
       ∨ (DeBridgeService.pollOnce none chainEvents = .completedViaChain
            ∧ DeBridgeService.checkBridgeFulfillment chainEvents = true))
    ∧ (∀ s, DeBridgeService.pollOnce none chainEvents ≠ .completedViaApi s)
    ∧ DeBridgeService.pollOnce none none = .retry
    ∧ (DeBridgeService.getBridgeStatus none chainEvents).status ≠ "Completed"
    ∧ ((DeBridgeService.getBridgeStatus none chainEvents).status = "Claimed"
         ↔ DeBridgeService.checkBridgeFulfillment chainEvents = true)
    ∧ (∀ s, DeBridgeService.pollOnce apiStatus chainEvents = .completedViaApi s →
         apiStatus = some "Claimed" ∨ apiStatus = some "Completed") := by
  refine ⟨?_, ?_, ?_, ?_, ?_, ?_⟩
  · cases chainEvents with
    | none => simp [DeBridgeService.pollOnce]
    | some n =>
      by_cases hn : 0 < n <;>
        simp [DeBridgeService.pollOnce, DeBridgeService.checkBridgeFulfillment, hn]
  · intro s
    cases chainEvents with
    | none => simp [DeBridgeService.pollOnce]
    | some n => by_cases hn : 0 < n <;> simp [DeBridgeService.pollOnce, hn]
  · rfl
  · cases chainEvents with
    | none => simp [DeBridgeService.getBridgeStatus, DeBridgeService.checkBridgeFulfillment]
    | some n =>
      by_cases hn : 0 < n <;>
        simp [DeBridgeService.getBridgeStatus, DeBridgeService.checkBridgeFulfillment, hn]
  · cases chainEvents with
    | none => simp [DeBridgeService.getBridgeStatus, DeBridgeService.checkBridgeFulfillment]
    | some n =>
      by_cases hn : 0 < n <;>
        simp [DeBridgeService.getBridgeStatus, DeBridgeService.checkBridgeFulfillment, hn]
  · intro s h
    cases apiStatus with
    | none =>
      exfalso
      cases chainEvents with
      | none => simp [DeBridgeService.pollOnce] at h
      | some n => by_cases hn : 0 < n <;> simp [DeBridgeService.pollOnce, hn] at h
    | some s' =>
      by_cases hcl : s' = "Claimed" ∨ s' = "Completed"
      · rcases hcl with hcl | hcl
        · exact Or.inl (by rw [hcl])
        · exact Or.inr (by rw [hcl])
      · exfalso
        cases chainEvents with
        | none => simp [DeBridgeService.pollOnce, hcl] at h
        | some n => by_cases hn : 0 < n <;> simp [DeBridgeService.pollOnce, hcl, hn] at h

/-- Claim C9: once a collateral contract is slashed the flag stays set
forever: `depositAndStake`, `registerTrade`, `slash` and `withdraw` all
revert on a slashed contract, `completeTrade` never clears the flag, a
successful `slash` always sets it, and `completeTrade` (which has no
`notSlashed` guard) still succeeds for an active trade on a slashed
contract when called by the backend. -/
theorem isSlashed_permanent
    (c : UserStaking) (sender : Address) (v : Nat) (tid : String) (transferOk : Bool)
    (hs : c.isSlashed = true) :
    exceptOk (UserStaking.depositAndStake c sender v) = false
    ∧ exceptOk (UserStaking.registerTrade c sender tid) = false
    ∧ exceptOk (UserStaking.slash c sender transferOk) = false
    ∧ exceptOk (UserStaking.withdraw c sender transferOk) = false
    ∧ (∀ c', UserStaking.completeTrade c sender tid = .ok c' → c'.isSlashed = true)
    ∧ (sender = c.backend → tid ∈ c.activeTrades →
        exceptOk (UserStaking.completeTrade c sender tid) = true)
    ∧ (∀ (c0 : UserStaking) (s0 : Address) (ok0 : Bool) (c1 : UserStaking) (n : Nat),
        UserStaking.slash c0 s0 ok0 = .ok (c1, n) → c1.isSlashed = true) := by
  refine ⟨?_, ?_, ?_, ?_, ?_, ?_, ?_⟩
  · unfold UserStaking.depositAndStake
    split
    · rfl
    · simp [hs, exceptOk]
  · unfold UserStaking.registerTrade
    split
    · rfl
    · simp [hs, exceptOk]
  · unfold UserStaking.slash
    split
    · rfl
    · simp [hs, exceptOk]
  · unfold UserStaking.withdraw
    split
    · rfl
    · simp [hs, exceptOk]
  · intro c' h
    unfold UserStaking.completeTrade at h
    split at h
    · exact absurd h (by simp)
    · split at h
      · simp only [Except.ok.injEq] at h
        rw [← h]
        exact hs
      · exact absurd h (by simp)
  · intro hb hm
    unfold UserStaking.completeTrade
    rw [hb]
    simp [hm, exceptOk]
  · intro c0 s0 ok0 c1 n h
    unfold UserStaking.slash at h
    split at h
    · exact absurd h (by simp)
    · split at h
      · exact absurd h (by simp)
      · split at h
        · exact absurd h (by simp)
        · split at h
          · exact absurd h (by simp)
          · simp only [Except.ok.injEq, Prod.mk.injEq] at h
            rw [← h.1]

/-- Witness for Claim C9 at a concrete slashed contract: the guarded
operations fail and `completeTrade` still succeeds for an active trade. -/
theorem isSlashed_permanent_witness :
    exceptOk (UserStaking.depositAndStake ⟨1, 2, 3, 4, 100, true, ["T"]⟩ 1 5) = false
    ∧ exceptOk (UserStaking.withdraw ⟨1, 2, 3, 4, 100, true, ["T"]⟩ 1 true) = false
    ∧ exceptOk (UserStaking.completeTrade ⟨1, 2, 3, 4, 100, true, ["T"]⟩ 3 "T") = true :=
  ⟨(isSlashed_permanent ⟨1, 2, 3, 4, 100, true, ["T"]⟩ 1 5 "T" true rfl).1,
   (isSlashed_permanent ⟨1, 2, 3, 4, 100, true, ["T"]⟩ 1 5 "T" true rfl).2.2.2.1,
   (isSlashed_permanent ⟨1, 2, 3, 4, 100, true, ["T"]⟩ 3 5 "T" true rfl).2.2.2.2.2.1
     rfl (by decide)⟩

/-- Claim C10: `setDebridgeId` on an unknown trade id is a silent no-op
leaving the registry unchanged; on a known trade it sets exactly the
`debridgeId` and `bridgeInitiated` fields of that trade and leaves every
other trade untouched. -/
theorem setDebridgeId_frame (reg : Registry) (tradeId dbid : String) :
    (getEntry reg tradeId = none → TradeMonitor.setDebridgeId reg tradeId dbid = reg)
    ∧ (∀ t, getEntry reg tradeId = some t →
        getEntry (TradeMonitor.setDebridgeId reg tradeId dbid) tradeId
          = some { t with debridgeId := some dbid, bridgeInitiated := true })
    ∧ (∀ k, k ≠ tradeId →
        getEntry (TradeMonitor.setDebridgeId reg tradeId dbid) k = getEntry reg k) := by
  refine ⟨?_, ?_, ?_⟩
  · intro h
    unfold TradeMonitor.setDebridgeId
    rw [h]
  · intro t h
    unfold TradeMonitor.setDebridgeId
    rw [h]
    exact getEntry_setEntry_self ..
  · intro k hk
    unfold TradeMonitor.setDebridgeId
    cases h : getEntry reg tradeId with
    | none => rfl
    | some t => exact getEntry_setEntry_ne _ _ _ _ hk

/-- Witness for Claim C10 at concrete registries: the unknown-id call is a
no-op, the known-id call updates only the two bridge fields, and an
unrelated key is unaffected. -/
theorem setDebridgeId_frame_witness :
    TradeMonitor.setDebridgeId [] "T" "D" = []
    ∧ getEntry (TradeMonitor.setDebridgeId [("T", initialTradeData 1 2 3 4)] "T" "D") "T"
        = some { initialTradeData 1 2 3 4 with
                   debridgeId := some "D", bridgeInitiated := true }
    ∧ getEntry (TradeMonitor.setDebridgeId [("T", initialTradeData 1 2 3 4)] "T" "D") "U"
        = getEntry [("T", initialTradeData 1 2 3 4)] "U" :=
  ⟨(setDebridgeId_frame [] "T" "D").1 rfl,
   (setDebridgeId_frame [("T", initialTradeData 1 2 3 4)] "T" "D").2.1 _ rfl,
   (setDebridgeId_frame [("T", initialTradeData 1 2 3 4)] "T" "D").2.2 "U" (by decide)⟩

/-- Claim C2: `slashUser` first reads the on-chain `isSlashed` flag and, if
the contract is already slashed, performs no further action: no slash
transaction is submitted and registry and chain are untouched; moreover
after a successful slash a second `slashUser` call on the same trade is a
no-op (the trade is gone from the registry). -/
theorem slashUser_idempotent
    (chain : ChainState) (reg : Registry) (signer : Address) (tradeId : String)
    (txOk transferOk : Bool) (t : TradeData) (c : UserStaking)
    (ht : getEntry reg tradeId = some t)
    (hc : getAddrEntry chain.contracts t.stakingContract = some c)
    (hs : c.isSlashed = true) :
    TradeMonitor.slashUser chain reg signer tradeId txOk transferOk
      = ⟨reg, chain, false, false⟩
    ∧ (∀ (chain2 : ChainState) (reg2 : Registry) (s2 : Address) (a2 b2 a3 b3 : Bool),
        (TradeMonitor.slashUser chain2 reg2 s2 tradeId a2 b2).txSucceeded = true →
        TradeMonitor.slashUser (TradeMonitor.slashUser chain2 reg2 s2 tradeId a2 b2).chain
            (TradeMonitor.slashUser chain2 reg2 s2 tradeId a2 b2).registry s2 tradeId a3 b3
          = ⟨(TradeMonitor.slashUser chain2 reg2 s2 tradeId a2 b2).registry,
             (TradeMonitor.slashUser chain2 reg2 s2 tradeId a2 b2).chain, false, false⟩) := by
  constructor
  · simp [TradeMonitor.slashUser, ht, hc, hs]
  · intro chain2 reg2 s2 a2 b2 a3 b3 hsucc
    exact slashUser_missing_trade _ _ _ _ _ _
      (slashUser_success_deletes chain2 reg2 s2 tradeId a2 b2 hsucc)

/-- Witness for Claim C2 at a concrete already-slashed contract: the call
submits no transaction and changes nothing. -/
theorem slashUser_idempotent_witness :
    TradeMonitor.slashUser ⟨[], [(5, ⟨1, 2, 3, 4, 100, true, []⟩)]⟩
        [("T", initialTradeData 1 5 10 0)] 3 "T" true true
      = ⟨[("T", initialTradeData 1 5 10 0)], ⟨[], [(5, ⟨1, 2, 3, 4, 100, true, []⟩)]⟩,
         false, false⟩ :=
  (slashUser_idempotent ⟨[], [(5, ⟨1, 2, 3, 4, 100, true, []⟩)]⟩
      [("T", initialTradeData 1 5 10 0)] 3 "T" true true
      (initialTradeData 1 5 10 0) ⟨1, 2, 3, 4, 100, true, []⟩ rfl rfl rfl).1

/-- Claim C3: every registration-time failure is returned synchronously as
`{success:false, error}` and creates no registry entry: the registry and
the chain are exactly as before the call, so for a fresh trade id
`getTradeStatus` still reports not-found after the failed registration. -/
theorem registerTrade_failure_creates_no_entry
    (chain : ChainState) (reg : Registry) (signer userAddress : Address)
    (tradeId : String) (amount now : Nat) (txOk : Bool)
    (hfail : (TradeMonitor.registerTrade chain reg signer userAddress tradeId amount now
        txOk).result.success = false)
    (hnew : getEntry reg tradeId = none) :
    (TradeMonitor.registerTrade chain reg signer userAddress tradeId amount now
        txOk).registry = reg
    ∧ (TradeMonitor.registerTrade chain reg signer userAddress tradeId amount now
        txOk).chain = chain
    ∧ TradeMonitor.getTradeStatus
        (TradeMonitor.registerTrade chain reg signer userAddress tradeId amount now
          txOk).registry tradeId = none
    ∧ (TradeMonitor.registerTrade chain reg signer userAddress tradeId amount now
        txOk).result.error ≠ none := by
  unfold TradeMonitor.registerTrade at hfail ⊢
  unfold TradeMonitor.getTradeStatus
  by_cases g1 : Factory.hasStakingContract chain userAddress = false
  · simp [g1, hnew]
  · simp only [g1, if_false] at hfail ⊢
    cases hca : getAddrEntry chain.contracts
        (Factory.getUserStakingContract chain userAddress) with
    | none => simp [hca, hnew]
    | some c =>
      simp only [hca] at hfail ⊢
      by_cases g2 : (UserStaking.getStatus c).2 = false
      · simp [g2, hnew]
      · simp only [g2, if_false] at hfail ⊢
        by_cases g3 : UserStaking.hasSufficientStake c amount = false
        · simp [g3, hnew]
        · simp only [g3, if_false] at hfail ⊢
          by_cases g4 : tradeId ∈ c.activeTrades
          · simp [g4, hnew]
          · simp only [g4, if_false] at hfail ⊢
            cases hreg : UserStaking.registerTrade c signer tradeId with
            | error e => simp [hreg, hnew]
            | ok c' =>
              simp only [hreg] at hfail ⊢
              by_cases g5 : txOk = false
              · simp [g5, hnew]
              · simp [g5] at hfail

/-- Witness for Claim C3: a user with no staking contract; the registration
fails and the registry stays empty. -/
theorem registerTrade_failure_creates_no_entry_witness :
    (TradeMonitor.registerTrade ⟨[], []⟩ [] 9 5 "T" 10 0 true).registry = []
    ∧ (TradeMonitor.registerTrade ⟨[], []⟩ [] 9 5 "T" 10 0 true).chain = ⟨[], []⟩
    ∧ TradeMonitor.getTradeStatus
        (TradeMonitor.registerTrade ⟨[], []⟩ [] 9 5 "T" 10 0 true).registry "T" = none
    ∧ (TradeMonitor.registerTrade ⟨[], []⟩ [] 9 5 "T" 10 0 true).result.error ≠ none :=
  registerTrade_failure_creates_no_entry ⟨[], []⟩ [] 9 5 "T" 10 0 true rfl rfl

/-- Claim C4: when the bridge completes but the on-chain finalize call
fails, the trade stays in the registry with `bridgeCompleted = true`;
the trade is removed from the registry exactly when the finalize
transaction succeeds. -/
theorem completeBridge_retains_trade_unless_finalized
    (chain : ChainState) (reg : Registry) (signer : Address) (tradeId : String)
    (txOk : Bool) (t : TradeData)
    (ht : getEntry reg tradeId = some t) :
    ((TradeMonitor.completeBridge chain reg signer tradeId txOk).finalized = false →
      TradeMonitor.getTradeStatus
          (TradeMonitor.completeBridge chain reg signer tradeId txOk).registry tradeId
        = some { t with bridgeCompleted := true })
    ∧ (TradeMonitor.getTradeStatus
          (TradeMonitor.completeBridge chain reg signer tradeId txOk).registry tradeId
         = none
       ↔ (TradeMonitor.completeBridge chain reg signer tradeId txOk).finalized = true) := by
  unfold TradeMonitor.completeBridge TradeMonitor.getTradeStatus
  simp only [ht]
  cases hca : getAddrEntry chain.contracts t.stakingContract with
  | none => simp [getEntry_setEntry_self]
  | some c =>
    simp only [hca]
    by_cases hx : txOk = false
    · simp [hx, getEntry_setEntry_self]
    · simp only [hx, if_false]
      cases hct : UserStaking.completeTrade c signer tradeId with
      | error e => simp [hct, getEntry_setEntry_self]
      | ok c' => simp [hct, getEntry_delEntry_self]

/-- Witness for Claim C4: the finalize transaction fails (no contract at
the recorded address); the trade is still registered and marked
bridge-completed. -/
theorem completeBridge_retains_trade_witness :
    TradeMonitor.getTradeStatus
        (TradeMonitor.completeBridge ⟨[], []⟩ [("T", initialTradeData 1 5 10 0)] 3 "T"
          true).registry "T"
      = some { initialTradeData 1 5 10 0 with bridgeCompleted := true } :=
  (completeBridge_retains_trade_unless_finalized ⟨[], []⟩
      [("T", initialTradeData 1 5 10 0)] 3 "T" true (initialTradeData 1 5 10 0) rfl).1 rfl

/-- Claim C5: when the venue call returns, the bridge-watch task is started
whether execution succeeded or failed; on a failed execution the failure
is recorded on the trade (`tradeExecuted` false, the error stored) and
returned to the caller. -/
theorem executeTrade_failure_still_starts_monitor
    (reg : Registry) (tradeId : String) (t : TradeData) (r : TradeMonitor.ExecResult)
    (ht : getEntry reg tradeId = some t) :
    (TradeMonitor.executeTrade reg tradeId (some r)).monitorStarted = true
    ∧ (r.success = false →
        TradeMonitor.getTradeStatus
            (TradeMonitor.executeTrade reg tradeId (some r)).registry tradeId
          = some { t with tradeExecuted := false, error := some r.error }
        ∧ (TradeMonitor.executeTrade reg tradeId (some r)).result
          = ⟨false, some r.error⟩) := by
  unfold TradeMonitor.executeTrade TradeMonitor.getTradeStatus
  simp only [ht]
  by_cases hr : r.success
  · simp [hr]
  · simp [hr, getEntry_setEntry_self]

/-- Witness for Claim C5: a concrete failed execution; the monitor is
started and the failure recorded. -/
theorem executeTrade_failure_witness :
    (TradeMonitor.executeTrade [("T", initialTradeData 1 5 10 0)] "T"
        (some ⟨false, "", 0, "venue down"⟩)).monitorStarted = true
    ∧ TradeMonitor.getTradeStatus
        (TradeMonitor.executeTrade [("T", initialTradeData 1 5 10 0)] "T"
          (some ⟨false, "", 0, "venue down"⟩)).registry "T"
      = some { initialTradeData 1 5 10 0 with
                 tradeExecuted := false, error := some "venue down" }
    ∧ (TradeMonitor.executeTrade [("T", initialTradeData 1 5 10 0)] "T"
        (some ⟨false, "", 0, "venue down"⟩)).result = ⟨false, some "venue down"⟩ :=
  ⟨(executeTrade_failure_still_starts_monitor [("T", initialTradeData 1 5 10 0)] "T"
      (initialTradeData 1 5 10 0) ⟨false, "", 0, "venue down"⟩ rfl).1,
   ((executeTrade_failure_still_starts_monitor [("T", initialTradeData 1 5 10 0)] "T"
      (initialTradeData 1 5 10 0) ⟨false, "", 0, "venue down"⟩ rfl).2 rfl).1,
   ((executeTrade_failure_still_starts_monitor [("T", initialTradeData 1 5 10 0)] "T"
      (initialTradeData 1 5 10 0) ⟨false, "", 0, "venue down"⟩ rfl).2 rfl).2⟩

/-- Claim C6 counterexample: the duplicate check reads `activeTrades(tradeId)`
on the calling user's own staking contract, so a second registration of
the same trade id by a different user (whose contract has not seen the
id) does not fail with a duplicate-id error: it succeeds and replaces
the first trade's record in the registry. -/
theorem duplicate_tradeId_cross_user_not_rejected :
    (TradeMonitor.registerTrade
        ⟨[(10, 1), (20, 2)],
         [(1, ⟨10, 7, 99, 50, 100, false, []⟩), (2, ⟨20, 7, 99, 50, 100, false, []⟩)]⟩
        [] 99 10 "T" 60 0 true).result.success = true
    ∧ getEntry (TradeMonitor.registerTrade
        ⟨[(10, 1), (20, 2)],
         [(1, ⟨10, 7, 99, 50, 100, false, []⟩), (2, ⟨20, 7, 99, 50, 100, false, []⟩)]⟩
        [] 99 10 "T" 60 0 true).registry "T" = some (initialTradeData 10 1 60 0)
    ∧ (TradeMonitor.registerTrade
        (TradeMonitor.registerTrade
          ⟨[(10, 1), (20, 2)],
           [(1, ⟨10, 7, 99, 50, 100, false, []⟩), (2, ⟨20, 7, 99, 50, 100, false, []⟩)]⟩
          [] 99 10 "T" 60 0 true).chain
        (TradeMonitor.registerTrade
          ⟨[(10, 1), (20, 2)],
           [(1, ⟨10, 7, 99, 50, 100, false, []⟩), (2, ⟨20, 7, 99, 50, 100, false, []⟩)]⟩
          [] 99 10 "T" 60 0 true).registry
        99 20 "T" 60 5 true).result.success = true
    ∧ (TradeMonitor.registerTrade
        (TradeMonitor.registerTrade
          ⟨[(10, 1), (20, 2)],
           [(1, ⟨10, 7, 99, 50, 100, false, []⟩), (2, ⟨20, 7, 99, 50, 100, false, []⟩)]⟩
          [] 99 10 "T" 60 0 true).chain
        (TradeMonitor.registerTrade
          ⟨[(10, 1), (20, 2)],
           [(1, ⟨10, 7, 99, 50, 100, false, []⟩), (2, ⟨20, 7, 99, 50, 100, false, []⟩)]⟩
          [] 99 10 "T" 60 0 true).registry
        99 20 "T" 60 5 true).result.error = none
    ∧ getEntry (TradeMonitor.registerTrade
        (TradeMonitor.registerTrade
          ⟨[(10, 1), (20, 2)],
           [(1, ⟨10, 7, 99, 50, 100, false, []⟩), (2, ⟨20, 7, 99, 50, 100, false, []⟩)]⟩
          [] 99 10 "T" 60 0 true).chain
        (TradeMonitor.registerTrade
          ⟨[(10, 1), (20, 2)],
           [(1, ⟨10, 7, 99, 50, 100, false, []⟩), (2, ⟨20, 7, 99, 50, 100, false, []⟩)]⟩
          [] 99 10 "T" 60 0 true).registry
        99 20 "T" 60 5 true).registry "T" = some (initialTradeData 20 2 60 5) := by
  decide

/-- A registration whose trade id is already active on the user's staking
contract fails with the duplicate error and changes nothing. -/
theorem registerTrade_known_duplicate
    (chain : ChainState) (reg : Registry) (signer u : Address) (tradeId : String)
    (amt now : Nat) (txOk : Bool) (c : UserStaking)
    (hhas : Factory.hasStakingContract chain u = true)
    (hc : getAddrEntry chain.contracts (Factory.getUserStakingContract chain u) = some c)
    (hns : c.isSlashed = false)
    (hsuf : amt ≤ c.stakedAmount)
    (hdup : tradeId ∈ c.activeTrades) :
    TradeMonitor.registerTrade chain reg signer u tradeId amt now txOk
      = ⟨⟨false, some "Trade already registered"⟩, reg, chain⟩ := by
  simp [TradeMonitor.registerTrade, hhas, hc, UserStaking.getStatus,
    UserStaking.hasSufficientStake, hns, hsuf, hdup]

/-- Claim C6 amended: a second registration of the same trade id through
the same user (hence the same staking contract, which already has the id
active) fails with "Trade already registered" and leaves the registry
(in particular the first trade's record) and the chain exactly as the
first registration left them. -/
theorem registerTrade_duplicate_same_user_fails
    (chain : ChainState) (reg : Registry) (signer u : Address) (tradeId : String)
    (amt1 amt2 now1 now2 : Nat) (txOk1 txOk2 : Bool) (c : UserStaking)
    (hc : getAddrEntry chain.contracts (Factory.getUserStakingContract chain u) = some c)
    (h1 : (TradeMonitor.registerTrade chain reg signer u tradeId amt1 now1
        txOk1).result.success = true)
    (hsuf2 : amt2 ≤ c.stakedAmount) :
    TradeMonitor.registerTrade
        (TradeMonitor.registerTrade chain reg signer u tradeId amt1 now1 txOk1).chain
        (TradeMonitor.registerTrade chain reg signer u tradeId amt1 now1 txOk1).registry
        signer u tradeId amt2 now2 txOk2
      = ⟨⟨false, some "Trade already registered"⟩,
         (TradeMonitor.registerTrade chain reg signer u tradeId amt1 now1 txOk1).registry,
         (TradeMonitor.registerTrade chain reg signer u tradeId amt1 now1 txOk1).chain⟩ := by
  have h1' := h1
  unfold TradeMonitor.registerTrade at h1'
  by_cases g1 : Factory.hasStakingContract chain u = false
  · simp [g1] at h1'
  · simp only [g1, if_false] at h1'
    simp only [hc] at h1'
    by_cases g2 : (UserStaking.getStatus c).2 = false
    · simp [g2] at h1'
    · simp only [g2, if_false] at h1'
      by_cases g3 : UserStaking.hasSufficientStake c amt1 = false
      · simp [g3] at h1'
      · simp only [g3, if_false] at h1'
        by_cases g4 : tradeId ∈ c.activeTrades
        · simp [g4] at h1'
        · simp only [g4, if_false] at h1'
          cases hreg : UserStaking.registerTrade c signer tradeId with
          | error e => simp [hreg] at h1'
          | ok c' =>
            simp only [hreg] at h1'
            by_cases g5 : txOk1 = false
            · simp [g5] at h1'
            · have hcs : c.isSlashed = false := by
                cases hb : c.isSlashed
                · rfl
                · simp [UserStaking.getStatus, hb] at g2
              have hhasT : Factory.hasStakingContract chain u = true := by
                cases hF : Factory.hasStakingContract chain u
                · exact absurd hF g1
                · rfl
              have hc' : c' = { c with activeTrades := tradeId :: c.activeTrades } := by
                unfold UserStaking.registerTrade at hreg
                repeat' split at hreg
                all_goals simp_all
              subst hc'
              have houtcome :
                  TradeMonitor.registerTrade chain reg signer u tradeId amt1 now1 txOk1
                    = ⟨⟨true, none⟩,
                       setEntry reg tradeId
                         (initialTradeData u (Factory.getUserStakingContract chain u)
                           amt1 now1),
                       chain.setContract (Factory.getUserStakingContract chain u)
                         { c with activeTrades := tradeId :: c.activeTrades }⟩ := by
                simp [TradeMonitor.registerTrade, hhasT, hc, g2, g3, g4, hreg, g5]
              rw [houtcome]
              exact registerTrade_known_duplicate
                (chain.setContract (Factory.getUserStakingContract chain u)
                  { c with activeTrades := tradeId :: c.activeTrades })
                (setEntry reg tradeId
                  (initialTradeData u (Factory.getUserStakingContract chain u) amt1 now1))
                signer u tradeId amt2 now2 txOk2
                { c with activeTrades := tradeId :: c.activeTrades }
                hhasT (getAddrEntry_setAddrEntry_self ..) hcs hsuf2
                (List.mem_cons_self ..)

/-- Witness for the amended Claim C6: a concrete same-user duplicate
registration fails with the duplicate error and changes nothing. -/
theorem registerTrade_duplicate_same_user_fails_witness :
    TradeMonitor.registerTrade
        (TradeMonitor.registerTrade
          ⟨[(10, 1)], [(1, ⟨10, 7, 99, 50, 100, false, []⟩)]⟩ [] 99 10 "T" 60 0
          true).chain
        (TradeMonitor.registerTrade
          ⟨[(10, 1)], [(1, ⟨10, 7, 99, 50, 100, false, []⟩)]⟩ [] 99 10 "T" 60 0
          true).registry
        99 10 "T" 60 5 true
      = ⟨⟨false, some "Trade already registered"⟩,
         (TradeMonitor.registerTrade
           ⟨[(10, 1)], [(1, ⟨10, 7, 99, 50, 100, false, []⟩)]⟩ [] 99 10 "T" 60 0
           true).registry,
         (TradeMonitor.registerTrade
           ⟨[(10, 1)], [(1, ⟨10, 7, 99, 50, 100, false, []⟩)]⟩ [] 99 10 "T" 60 0
           true).chain⟩ :=
  registerTrade_duplicate_same_user_fails
    ⟨[(10, 1)], [(1, ⟨10, 7, 99, 50, 100, false, []⟩)]⟩ [] 99 10 "T" 60 60 0 5 true true
    ⟨10, 7, 99, 50, 100, false, []⟩ rfl rfl (by decide)

end HyperFlash
